import Mathlib

/-!
Shallow embedding of the SlidePanel component of src/assets/js/main.js
(the jQuery panel plugin), together with theorems settling the spec
claims about it.

The embedding mirrors the source:
  - evaluateSwipe            (main.js lines 871-886)
  - the touchstart handler   (main.js lines 745-754)
  - the touchmove handler    (main.js lines 757-790)
  - the touchend handler     (main.js lines 793-799, stopPropagation only)
  - the instance method _hide and its deferred cleanup (main.js lines 651-696)
  - isValidHrefForPanelClick (main.js lines 856-861)
  - the hideOnClick link handler (main.js lines 713-741)
  - the body toggle handler  (main.js lines 819-830)
  - isStringNotEmpty         (main.js lines 448-450)

JavaScript numeric quirks that matter here (NaN propagation from
arithmetic on undefined, every comparison with NaN being false, and the
strict-equality test against null) are modelled explicitly.
-/

namespace Portfolio

/-- A JavaScript number as used by the touch handlers: NaN or a finite
value. Page coordinates and thresholds in the source are integers, so
finite values are modelled as Int. -/
inductive JNum where
  | nan : JNum
  | num : Int → JNum
deriving DecidableEq

/-- JavaScript comparison a < b: false whenever either side is NaN. -/
def jlt : JNum → JNum → Bool
  | JNum.num a, JNum.num b => a < b
  | _, _ => false

/-- JavaScript comparison a > b: false whenever either side is NaN. -/
def jgt : JNum → JNum → Bool
  | JNum.num a, JNum.num b => b < a
  | _, _ => false

/-- JavaScript subtraction: NaN-absorbing. -/
def jsub : JNum → JNum → JNum
  | JNum.num a, JNum.num b => JNum.num (a - b)
  | _, _ => JNum.nan

/-- A JavaScript expando-property value as stored in touchPosX and
touchPosY on the panel element: absent (undefined), null, or a number. -/
inductive JVal where
  | undef : JVal
  | null : JVal
  | num : Int → JVal
deriving DecidableEq

/-- The strict-equality test v === null from line 759. -/
def JVal.isNull : JVal → Bool
  | JVal.null => true
  | _ => false

/-- Numeric coercion applied by JavaScript arithmetic: undefined
coerces to NaN, null coerces to 0. -/
def JVal.toJNum : JVal → JNum
  | JVal.undef => JNum.nan
  | JVal.null => JNum.num 0
  | JVal.num x => JNum.num x

/-- The recognized values of the side option; the default (null) and any
other string hit the switch default and are modelled by Option.none at
use sites. -/
inductive Side where
  | left : Side
  | right : Side
  | top : Side
  | bottom : Side
deriving DecidableEq

/-- evaluateSwipe from main.js lines 871-886: boundary = 20, delta = 50;
switch on side with the four direction cases, default false. diffX and
diffY arrive as JavaScript numbers (possibly NaN). -/
def evaluateSwipe (side : Option Side) (diffX diffY : JNum) : Bool :=
  match side with
  | some Side.left =>
      (jlt diffY (JNum.num 20) && jgt diffY (JNum.num (-20))) && jgt diffX (JNum.num 50)
  | some Side.right =>
      (jlt diffY (JNum.num 20) && jgt diffY (JNum.num (-20))) && jlt diffX (JNum.num (-50))
  | some Side.top =>
      (jlt diffX (JNum.num 20) && jgt diffX (JNum.num (-20))) && jgt diffY (JNum.num 50)
  | some Side.bottom =>
      (jlt diffX (JNum.num 20) && jgt diffX (JNum.num (-20))) && jlt diffY (JNum.num (-50))
  | none => false

/-- The panel configuration after normalizeConfig (main.js lines
633-645): the fields the embedded handlers read. target and
visibleClass are represented by the Boolean visibility state of the
target element. -/
structure PanelConfig where
  delay : Int
  hideOnClick : Bool
  hideOnEscape : Bool
  hideOnSwipe : Bool
  resetScroll : Bool
  resetForms : Bool
  side : Option Side
deriving DecidableEq

/-- The per-gesture touch state stored on the panel element: the
expando properties touchPosX and touchPosY. Before any touchstart both
are absent (undefined). -/
structure PanelTouch where
  touchPosX : JVal
  touchPosY : JVal
deriving DecidableEq

/-- The state of the touch properties before any handler has run:
the expando properties do not exist, so reading them yields undefined. -/
def initialTouch : PanelTouch :=
  { touchPosX := JVal.undef, touchPosY := JVal.undef }

/-- The data a touchmove event delivers to the handler: the first touch
point and the geometry read from the element (scrollTop, scrollHeight,
outerHeight). -/
structure MoveInput where
  pageX : Int
  pageY : Int
  scrollTop : Int
  scrollHeight : Int
  outerHeight : Int
deriving DecidableEq

/-- What one run of the touchmove handler does: the touch state it
leaves behind, whether it invoked the _hide instance method (the
recognized-swipe branch), and whether the overscroll guard called
preventDefault and stopPropagation. -/
structure MoveResult where
  state : PanelTouch
  hideCalled : Bool
  overscrollPrevented : Bool
deriving DecidableEq

/-- The touchstart handler (main.js lines 745-754): if the event has no
touch point, return; otherwise record its coordinates in touchPosX and
touchPosY. -/
def touchstartHandler (st : PanelTouch) (touch : Option (Int × Int)) : PanelTouch :=
  match touch with
  | none => st
  | some p => { touchPosX := JVal.num p.1, touchPosY := JVal.num p.2 }

/-- The touchmove handler (main.js lines 757-790). Returns early when
touchPosX === null or touchPosY === null. Computes diffX and diffY as
(stored minus current) with JavaScript arithmetic, so an undefined
stored value yields NaN. If hideOnSwipe is set and evaluateSwipe
recognizes a swipe, clears both coordinates to null and calls _hide.
Otherwise applies the overscroll guard: suppress the default when
scrollTop() < 0 and diffY < 0, or when scrollHeight - scrollTop lies
strictly between outerHeight - 2 and outerHeight + 2 and diffY > 0. -/
def touchmoveHandler (cfg : PanelConfig) (st : PanelTouch) (inp : MoveInput) : MoveResult :=
  if st.touchPosX.isNull || st.touchPosY.isNull then
    { state := st, hideCalled := false, overscrollPrevented := false }
  else
    let diffX := jsub st.touchPosX.toJNum (JNum.num inp.pageX)
    let diffY := jsub st.touchPosY.toJNum (JNum.num inp.pageY)
    let elementHeight := inp.outerHeight
    let scrollDistance := inp.scrollHeight - inp.scrollTop
    if cfg.hideOnSwipe && evaluateSwipe cfg.side diffX diffY then
      { state := { touchPosX := JVal.null, touchPosY := JVal.null },
        hideCalled := true, overscrollPrevented := false }
    else if (decide (inp.scrollTop < 0) && jlt diffY (JNum.num 0))
        || (decide (scrollDistance > elementHeight - 2)
            && decide (scrollDistance < elementHeight + 2)
            && jgt diffY (JNum.num 0)) then
      { state := st, hideCalled := false, overscrollPrevented := true }
    else
      { state := st, hideCalled := false, overscrollPrevented := false }

/-- One event of a touch gesture as delivered to the panel element. -/
inductive TouchEvt where
  | start : Int → Int → TouchEvt
  | move : MoveInput → TouchEvt
  | fin : TouchEvt
deriving DecidableEq

/-- The effect of one touch event on the stored touch state. touchend
is handled only by the stopPropagation binding of main.js lines
793-799, which does not touch the stored coordinates. -/
def touchStep (cfg : PanelConfig) (st : PanelTouch) : TouchEvt → PanelTouch
  | TouchEvt.start x y => touchstartHandler st (some (x, y))
  | TouchEvt.move inp => (touchmoveHandler cfg st inp).state
  | TouchEvt.fin => st

/-- The stored touch state after a sequence of touch events. -/
def runGesture (cfg : PanelConfig) (st : PanelTouch) (evts : List TouchEvt) : PanelTouch :=
  evts.foldl (touchStep cfg) st

/-- A form nested in the panel, for the resetForms cleanup: whether its
reset() call throws, and whether it has been successfully reset. -/
structure FormState where
  throwsOnReset : Bool
  wasReset : Bool
deriving DecidableEq

/-- One reset() call (main.js line 686): throws or succeeds. -/
def resetOneForm (f : FormState) : Except Unit FormState :=
  if f.throwsOnReset then Except.error ()
  else Except.ok { f with wasReset := true }

/-- The per-form try/catch around reset() (main.js lines 685-689): a
throwing reset leaves the form as it was and the exception is caught. -/
def tryResetForm (f : FormState) : FormState :=
  match resetOneForm f with
  | Except.ok f2 => f2
  | Except.error _ => f

/-- The each-loop over the forms found in the panel (main.js lines
684-690): every form gets its own guarded reset attempt. -/
def resetAllForms (fs : List FormState) : List FormState :=
  fs.map tryResetForm

/-- The observable state _hide acts on: whether the target carries the
visible class, the scroll position of the panel element, and the forms
nested inside it. -/
structure PanelWorld where
  visible : Bool
  scrollTop : Int
  forms : List FormState
deriving DecidableEq

/-- What one call of _hide does: the immediate state, whether it
cancelled the originating event, and the delay at which the cleanup
callback was scheduled (none when no setTimeout was issued). -/
structure HideOutcome where
  world : PanelWorld
  eventCancelled : Bool
  cleanupAt : Option Int
deriving DecidableEq

/-- The _hide instance method (main.js lines 651-696). Returns
immediately when the target does not carry the visible class. Otherwise
cancels the supplied event if any, removes the visible class, and
schedules the cleanup callback after config.delay milliseconds. _hide
performs no navigation. -/
def hideFn (cfg : PanelConfig) (w : PanelWorld) (hasEvent : Bool) : HideOutcome :=
  if w.visible = false then
    { world := w, eventCancelled := false, cleanupAt := none }
  else
    { world := { w with visible := false },
      eventCancelled := hasEvent, cleanupAt := some cfg.delay }

/-- The deferred cleanup callback scheduled by _hide (main.js lines
675-695): scroll to top when resetScroll is set, reset every nested
form when resetForms is set. -/
def runHideCleanup (cfg : PanelConfig) (w : PanelWorld) : PanelWorld :=
  { w with
    scrollTop := if cfg.resetScroll then 0 else w.scrollTop,
    forms := if cfg.resetForms then resetAllForms w.forms else w.forms }

/-- isStringNotEmpty from main.js lines 448-450: the value is a string
of positive length. none models undefined. -/
def isStringNotEmpty : Option String → Bool
  | none => false
  | some s => decide (0 < s.length)

/-- isValidHrefForPanelClick from main.js lines 856-861: reject an
empty or missing href, the bare fragment "#", and, when the panel id is
truthy, the self-referencing fragment. The truthiness test on the
string panelId is isStringNotEmpty. -/
def isValidHrefForPanelClick (href : Option String) (panelId : Option String) : Bool :=
  if isStringNotEmpty href = false then false
  else if href = some "#" then false
  else if isStringNotEmpty panelId && decide (href = some ("#" ++ panelId.getD "")) then false
  else true

/-- The navigation issued by the deferred redirect (main.js lines
733-740): window.open for a _blank anchor target, assignment to
window.location.href otherwise. -/
inductive NavAction where
  | openWindow : String → NavAction
  | navigate : String → NavAction
deriving DecidableEq

/-- What one click on an anchor inside the panel does under the
hideOnClick binding: whether the handler intercepted the click
(cancelled it), the world after the immediate part of _hide, the delay
of the hide cleanup if scheduled, and the delay and kind of the
scheduled navigation if any. -/
structure ClickOutcome where
  intercepted : Bool
  world : PanelWorld
  hideCleanupAt : Option Int
  navAt : Option Int
  navAction : Option NavAction
deriving DecidableEq

/-- The click handler attached when hideOnClick is set (main.js lines
713-741): read the anchor href and target attributes; return when
isValidHrefForPanelClick rejects the href; otherwise cancel the event,
call _hide with no event argument, and schedule the redirect after
config.delay + 10 milliseconds. -/
def hideOnClickHandler (cfg : PanelConfig) (w : PanelWorld)
    (panelId href targetAttr : Option String) : ClickOutcome :=
  if isValidHrefForPanelClick href panelId = false then
    { intercepted := false, world := w, hideCleanupAt := none,
      navAt := none, navAction := none }
  else
    let h := hideFn cfg w false
    let hv := href.getD ""
    { intercepted := true, world := h.world, hideCleanupAt := h.cleanupAt,
      navAt := some (cfg.delay + 10),
      navAction := some (if targetAttr = some "_blank"
        then NavAction.openWindow hv else NavAction.navigate hv) }

/-- A click on an anchor inside the panel: the interception handler is
bound only when config.hideOnClick is set (main.js line 706); without
it the click has none of the modelled effects. -/
def panelLinkClick (cfg : PanelConfig) (w : PanelWorld)
    (panelId href targetAttr : Option String) : ClickOutcome :=
  if cfg.hideOnClick then hideOnClickHandler cfg w panelId href targetAttr
  else
    { intercepted := false, world := w, hideCleanupAt := none,
      navAt := none, navAction := none }

/-- The body-level toggle handler (main.js lines 819-830): bound only
when the panel id is a non-empty string, delegated to anchors whose
href is exactly the fragment "#" followed by the id, and its effect is
toggleClass on the target. Clicks on other anchors leave the
visibility unchanged by this handler. -/
def bodyToggleClick (panelId href : Option String) (visible : Bool) : Bool :=
  if isStringNotEmpty panelId && decide (href = some ("#" ++ panelId.getD "")) then
    !visible
  else visible

/-- Modelled from the spec words of the overscroll claim: suppression
happens exactly when the element is scrolled to the top and the drag
continues upward, or scrolled to the bottom and the drag continues
downward. Scrolled to the top is scrollTop at or past zero; scrolled to
the bottom is scrollHeight - scrollTop equal to the element height;
dragging upward means the content keeps scrolling toward the top, which
is diffY < 0 in the handler coordinates, and dragging downward is
diffY > 0. -/
def specOverscrollSuppress (scrollTop scrollHeight outerHeight diffY : Int) : Bool :=
  (decide (scrollTop ≤ 0) && decide (diffY < 0))
    || (decide (scrollHeight - scrollTop = outerHeight) && decide (diffY > 0))

/-!
Theorems settling the claims.
-/

/-- C1 counterexample: the claim is false on the code. With side =
right and hideOnSwipe set, the touch sequence that starts at (100,200)
and moves to (30,210) gives diffX = 70 and diffY = -10; the touchmove
handler does NOT recognize a swipe: _hide is not called and the tracked
coordinates keep their recorded values instead of being cleared to
null. -/
theorem swipe_right_leftward_drag_not_recognized :
    touchmoveHandler
      { delay := 0, hideOnClick := false, hideOnEscape := false, hideOnSwipe := true,
        resetScroll := false, resetForms := false, side := some Side.right }
      (touchstartHandler initialTouch (some (100, 200)))
      { pageX := 30, pageY := 210, scrollTop := 0, scrollHeight := 500, outerHeight := 300 }
      = { state := { touchPosX := JVal.num 100, touchPosY := JVal.num 200 },
          hideCalled := false, overscrollPrevented := false } := by
  decide

/-- C1 amended: the same touch sequence, start at (100,200) and move to
(30,210) with diffX = 70 and diffY = -10, is recognized as a swipe when
side = left (not side = right): the handler clears both tracked
coordinates to null and calls _hide. -/
theorem swipe_left_recognizes_leftward_drag_scenario :
    touchmoveHandler
      { delay := 0, hideOnClick := false, hideOnEscape := false, hideOnSwipe := true,
        resetScroll := false, resetForms := false, side := some Side.left }
      (touchstartHandler initialTouch (some (100, 200)))
      { pageX := 30, pageY := 210, scrollTop := 0, scrollHeight := 500, outerHeight := 300 }
      = { state := { touchPosX := JVal.null, touchPosY := JVal.null },
          hideCalled := true, overscrollPrevented := false } := by
  decide

/-- C2 counterexample: the claim is false on the code. A leftward drag
of 60px gives diffX = +60 (diffX is start minus current), and with
side = right and vertical drift 5px evaluateSwipe does not recognize a
swipe, because the right case requires diffX < -50. -/
theorem swipe_right_leftward_drift5_not_recognized :
    evaluateSwipe (some Side.right) (JNum.num 60) (JNum.num 5) = false := by
  decide

/-- C2 amended: for side = right the recognized direction is rightward:
a rightward drag of 60px (diffX = -60) with vertical drift of 5px is
recognized as a swipe, while the same drag with vertical drift of 30px
is not. -/
theorem swipe_right_rightward_drag_drift_specific :
    evaluateSwipe (some Side.right) (JNum.num (-60)) (JNum.num 5) = true
      ∧ evaluateSwipe (some Side.right) (JNum.num (-60)) (JNum.num 30) = false := by
  decide

/-- For every configured side, evaluateSwipe on NaN differences is
false: every comparison involving NaN is false. -/
theorem evaluateSwipe_nan_false (side : Option Side) :
    evaluateSwipe side JNum.nan JNum.nan = false := by
  cases side with
  | none => rfl
  | some s => cases s <;> rfl

/-- C10: if a touchmove arrives before any touchstart, the stored
coordinates are undefined (not null), so the null guard does not return
early; the differences are NaN, every comparison in evaluateSwipe and
in the overscroll guard is false, and the handler neither hides the
panel nor suppresses scrolling nor changes the stored state. -/
theorem touchmove_before_touchstart_noop (cfg : PanelConfig) (inp : MoveInput) :
    touchmoveHandler cfg initialTouch inp
      = { state := initialTouch, hideCalled := false, overscrollPrevented := false } := by
  unfold touchmoveHandler initialTouch
  simp only [JVal.isNull, JVal.toJNum, jsub, jlt, jgt, Bool.or_self, Bool.false_or,
    Bool.and_false, Bool.or_false, evaluateSwipe_nan_false, if_false]
  rfl

/-- C3 counterexample: the claim is false on the code. With the panel
scrolled exactly to the top (scrollTop = 0) and the drag continuing
upward (diffY = -5), the spec condition says scrolling must be
suppressed, but the touchmove handler does not call preventDefault,
because the code tests scrollTop() < 0 strictly. -/
theorem overscroll_spec_mismatch_at_top :
    specOverscrollSuppress 0 500 300 (-5) = true
      ∧ (touchmoveHandler
          { delay := 0, hideOnClick := false, hideOnEscape := false, hideOnSwipe := false,
            resetScroll := false, resetForms := false, side := some Side.right }
          { touchPosX := JVal.num 200, touchPosY := JVal.num 100 }
          { pageX := 200, pageY := 105, scrollTop := 0, scrollHeight := 500,
            outerHeight := 300 }).overscrollPrevented = false := by
  decide

/-- C3 amended: in the touchmove handler, when the stored coordinates
are numbers and no swipe is recognized, default scrolling is suppressed
exactly when the element is over-scrolled past the top (scrollTop
strictly negative) and the drag continues upward (diffY < 0), or
scrollHeight - scrollTop lies strictly within 2px of the element height
(scrolled to the bottom up to that tolerance) and the drag continues
downward (diffY > 0). -/
theorem overscroll_guard_exact_condition (cfg : PanelConfig) (x y : Int) (inp : MoveInput)
    (hsw : (cfg.hideOnSwipe && evaluateSwipe cfg.side
        (JNum.num (x - inp.pageX)) (JNum.num (y - inp.pageY))) = false) :
    (touchmoveHandler cfg { touchPosX := JVal.num x, touchPosY := JVal.num y }
        inp).overscrollPrevented
      = ((decide (inp.scrollTop < 0) && decide (y - inp.pageY < 0))
        || (decide (inp.scrollHeight - inp.scrollTop > inp.outerHeight - 2)
            && decide (inp.scrollHeight - inp.scrollTop < inp.outerHeight + 2)
            && decide (y - inp.pageY > 0))) := by
  simp only [touchmoveHandler, JVal.isNull, JVal.toJNum, jsub, jlt, jgt, Bool.or_self,
    hsw, Bool.false_or, if_false]
  repeat' split <;> simp_all

/-- C3 witness: a concrete instance of the amended overscroll theorem:
over-scrolled past the top (scrollTop = -1) while still dragging upward
(diffY = -5), with hideOnSwipe off, the guard suppresses scrolling. -/
theorem overscroll_guard_exact_condition_witness :
    (touchmoveHandler
        { delay := 0, hideOnClick := false, hideOnEscape := false, hideOnSwipe := false,
          resetScroll := false, resetForms := false, side := none }
        { touchPosX := JVal.num 100, touchPosY := JVal.num 200 }
        { pageX := 90, pageY := 205, scrollTop := -1, scrollHeight := 500,
          outerHeight := 300 }).overscrollPrevented = true :=
  (overscroll_guard_exact_condition
    { delay := 0, hideOnClick := false, hideOnEscape := false, hideOnSwipe := false,
      resetScroll := false, resetForms := false, side := none }
    100 200
    { pageX := 90, pageY := 205, scrollTop := -1, scrollHeight := 500,
      outerHeight := 300 }
    (by decide)).trans (by decide)

/-- C4 counterexample: the claim is false on the code. A gesture that
starts at (100,200), moves without meeting the swipe thresholds, and
ends, leaves the stored coordinates holding the recorded numbers: they
are not reset to null when the gesture resolves, because only the
recognized-swipe branch clears them and the touchend binding only stops
propagation. -/
theorem touch_state_not_cleared_after_gesture :
    runGesture
        { delay := 0, hideOnClick := false, hideOnEscape := false, hideOnSwipe := true,
          resetScroll := false, resetForms := false, side := some Side.right }
        initialTouch
        [TouchEvt.start 100 200,
         TouchEvt.move { pageX := 98, pageY := 203, scrollTop := 10,
                         scrollHeight := 500, outerHeight := 300 },
         TouchEvt.fin]
      = { touchPosX := JVal.num 100, touchPosY := JVal.num 200 }
      ∧ JVal.num 100 ≠ JVal.null := by
  decide

/-- C4 amended: the stored touch coordinates are cleared to null
exactly when a touchmove recognizes a swipe (the branch that calls
_hide); a touchmove that recognizes no swipe leaves the stored state
unchanged, and touchend never changes it, so after a gesture that ends
without a recognized swipe the coordinates keep their last touchstart
values. -/
theorem touch_state_cleared_only_on_swipe (cfg : PanelConfig) (st : PanelTouch)
    (inp : MoveInput) :
    ((touchmoveHandler cfg st inp).hideCalled = true →
        (touchmoveHandler cfg st inp).state
          = { touchPosX := JVal.null, touchPosY := JVal.null })
      ∧ ((touchmoveHandler cfg st inp).hideCalled = false →
        (touchmoveHandler cfg st inp).state = st)
      ∧ touchStep cfg st TouchEvt.fin = st := by
  refine ⟨?_, ?_, rfl⟩ <;>
    · simp only [touchmoveHandler]
      repeat' split <;> simp_all

/-- C4 witness: a concrete instance of the amended theorem: a touchmove
that does not meet the swipe thresholds leaves the recorded coordinates
in place. -/
theorem touch_state_cleared_only_on_swipe_witness :
    (touchmoveHandler
        { delay := 0, hideOnClick := false, hideOnEscape := false, hideOnSwipe := true,
          resetScroll := false, resetForms := false, side := some Side.right }
        { touchPosX := JVal.num 100, touchPosY := JVal.num 200 }
        { pageX := 98, pageY := 203, scrollTop := 10, scrollHeight := 500,
          outerHeight := 300 }).state
      = { touchPosX := JVal.num 100, touchPosY := JVal.num 200 } :=
  (touch_state_cleared_only_on_swipe
    { delay := 0, hideOnClick := false, hideOnEscape := false, hideOnSwipe := true,
      resetScroll := false, resetForms := false, side := some Side.right }
    { touchPosX := JVal.num 100, touchPosY := JVal.num 200 }
    { pageX := 98, pageY := 203, scrollTop := 10, scrollHeight := 500,
      outerHeight := 300 }).2.1 (by decide)

/-- C5: _hide is a no-op when the target does not carry the visible
class: the world (visibility, scroll position, nested forms) is
returned unchanged, the originating event is not cancelled, and no
cleanup callback is scheduled, so neither the scroll reset nor the form
reset can run; hideFn has no navigation effect in any branch. -/
theorem hide_noop_when_not_visible (cfg : PanelConfig) (w : PanelWorld) (hasEvent : Bool)
    (h : w.visible = false) :
    hideFn cfg w hasEvent = { world := w, eventCancelled := false, cleanupAt := none } := by
  simp [hideFn, h]

/-- C5 witness: a concrete closed instance of the no-op hide, with
every cleanup option enabled in the configuration. -/
theorem hide_noop_when_not_visible_witness :
    hideFn
        { delay := 500, hideOnClick := true, hideOnEscape := true, hideOnSwipe := true,
          resetScroll := true, resetForms := true, side := some Side.right }
        { visible := false, scrollTop := 42,
          forms := [{ throwsOnReset := false, wasReset := false }] }
        true
      = { world := { visible := false, scrollTop := 42,
                     forms := [{ throwsOnReset := false, wasReset := false }] },
          eventCancelled := false, cleanupAt := none } :=
  hide_noop_when_not_visible
    { delay := 500, hideOnClick := true, hideOnEscape := true, hideOnSwipe := true,
      resetScroll := true, resetForms := true, side := some Side.right }
    { visible := false, scrollTop := 42,
      forms := [{ throwsOnReset := false, wasReset := false }] }
    true rfl

/-- A string has positive length exactly when it is not the empty
string. -/
theorem string_pos_len_iff (s : String) : 0 < s.length ↔ s ≠ "" := by
  cases s with
  | mk data =>
    simp [String.length, String.ext_iff]
    exact List.length_pos

/-- C6: for a panel whose id is a non-empty string, the hideOnClick
interception is skipped exactly for the href values rejected by
isValidHrefForPanelClick: the empty string, the bare fragment "#", and
the self-referencing fragment "#" followed by the panel id; every other
href string passes the check and the interception fires. -/
theorem href_interception_condition (href ownId : String) (hid : ownId ≠ "") :
    isValidHrefForPanelClick (some href) (some ownId) = false
      ↔ (href = "" ∨ href = "#" ∨ href = "#" ++ ownId) := by
  have hnum : isStringNotEmpty (some ownId) = true := by
    simpa [isStringNotEmpty] using (string_pos_len_iff ownId).mpr hid
  by_cases h1 : href = ""
  · subst h1
    simp [isValidHrefForPanelClick, isStringNotEmpty]
  · have hne : isStringNotEmpty (some href) = true := by
      simpa [isStringNotEmpty] using (string_pos_len_iff href).mpr h1
    by_cases h2 : href = "#"
    · subst h2
      simp [isValidHrefForPanelClick, hne]
    · by_cases h3 : href = "#" ++ ownId
      · subst h3
        simp [isValidHrefForPanelClick, hne, hnum, h2]
      · simp [isValidHrefForPanelClick, hne, hnum, h1, h2, h3]

/-- C6 witness: the self-referencing fragment for the concrete panel id
is rejected, so the interception does not fire for it. -/
theorem href_interception_condition_witness :
    isValidHrefForPanelClick (some ("#" ++ "panel")) (some "panel") = false :=
  (href_interception_condition ("#" ++ "panel") "panel" (by decide)).mpr
    (Or.inr (Or.inr rfl))

/-- C7: with hideOnClick enabled, a click on an interior anchor whose
href passes the validity check is intercepted: the visible class is
removed immediately (the world is closed when the handler returns), and
navigation is scheduled at config.delay + 10 milliseconds, as
window.open when the anchor target attribute is the string _blank and
as a same-window location assignment otherwise. -/
theorem hideOnClick_defers_navigation (cfg : PanelConfig) (w : PanelWorld)
    (pid href tgt : Option String) (hc : cfg.hideOnClick = true)
    (hv : isValidHrefForPanelClick href pid = true) :
    (panelLinkClick cfg w pid href tgt).intercepted = true
      ∧ (panelLinkClick cfg w pid href tgt).world.visible = false
      ∧ (panelLinkClick cfg w pid href tgt).navAt = some (cfg.delay + 10)
      ∧ (panelLinkClick cfg w pid href tgt).navAction
          = some (if tgt = some "_blank" then NavAction.openWindow (href.getD "")
              else NavAction.navigate (href.getD "")) := by
  refine ⟨by simp [panelLinkClick, hideOnClickHandler, hc, hv], ?_,
    by simp [panelLinkClick, hideOnClickHandler, hc, hv],
    by simp [panelLinkClick, hideOnClickHandler, hc, hv]⟩
  simp [panelLinkClick, hideOnClickHandler, hideFn, hc, hv]
  split <;> simp_all

/-- C7 witness: the scenario of the spec: delay 500, hideOnClick
enabled, panel open, interior link to /about with no target attribute:
the click is intercepted and same-window navigation is scheduled at
510 milliseconds. -/
theorem hideOnClick_defers_navigation_witness :
    (panelLinkClick
        { delay := 500, hideOnClick := true, hideOnEscape := false, hideOnSwipe := true,
          resetScroll := false, resetForms := false, side := some Side.right }
        { visible := true, scrollTop := 0, forms := [] }
        (some "panel") (some "/about") none).navAt = some 510
      ∧ (panelLinkClick
        { delay := 500, hideOnClick := true, hideOnEscape := false, hideOnSwipe := true,
          resetScroll := false, resetForms := false, side := some Side.right }
        { visible := true, scrollTop := 0, forms := [] }
        (some "panel") (some "/about") none).world.visible = false := by
  have h := hideOnClick_defers_navigation
    { delay := 500, hideOnClick := true, hideOnEscape := false, hideOnSwipe := true,
      resetScroll := false, resetForms := false, side := some Side.right }
    { visible := true, scrollTop := 0, forms := [] }
    (some "panel") (some "/about") none rfl (by decide)
  exact ⟨by simpa using h.2.2.1, h.2.1⟩

/-- C8: the resetForms cleanup resets every nested form whose reset
call does not throw, regardless of any other form throwing: each form
gets its own try/catch, so one failure never aborts the remaining
resets. -/
theorem form_reset_isolated (fs : List FormState) (i : Nat) (hi : i < fs.length)
    (hi2 : i < (resetAllForms fs).length)
    (hnt : (fs.get ⟨i, hi⟩).throwsOnReset = false) :
    ((resetAllForms fs).get ⟨i, hi2⟩).wasReset = true := by
  simp only [List.get_eq_getElem] at hnt ⊢
  simp [resetAllForms, tryResetForm, resetOneForm, hnt]

/-- C8 witness: the scenario of the spec: two forms, the first throws
during reset, and the second is still reset successfully. -/
theorem form_reset_isolated_witness :
    ((resetAllForms
        [{ throwsOnReset := true, wasReset := false },
         { throwsOnReset := false, wasReset := false }]).get
      ⟨1, by decide⟩).wasReset = true :=
  form_reset_isolated
    [{ throwsOnReset := true, wasReset := false },
     { throwsOnReset := false, wasReset := false }]
    1 (by decide) (by decide) (by decide)

/-- C9: the body-level toggle: a click on an anchor whose href is the
fragment "#" followed by the panel id flips the visible class on the
target, and two consecutive such clicks restore the original visibility
from either initial state; the involution also holds trivially for
anchors the delegated selector does not match, which leave the state
unchanged. -/
theorem toggle_involution (pid href : Option String) (v : Bool) :
    bodyToggleClick pid href (bodyToggleClick pid href v) = v
      ∧ (isStringNotEmpty pid = true → href = some ("#" ++ pid.getD "") →
          bodyToggleClick pid href v = !v) := by
  unfold bodyToggleClick
  constructor
  · split <;> simp_all
  · intro h1 h2
    simp [h1, h2]

/-- C9 witness: a concrete toggle click on an open panel with id panel
flips the visible class off. -/
theorem toggle_involution_witness :
    bodyToggleClick (some "panel") (some ("#" ++ "panel")) true = !true :=
  (toggle_involution (some "panel") (some ("#" ++ "panel")) true).2 (by decide) rfl

end Portfolio
